import Mathlib

/-!
# Verification of `assignment3.cpp`

A shallow embedding of the lepton / lepton-detector program:

* `int` is `Int`, reduced to 32 bits two's complement by `wrap_int` where the source
  does arithmetic on it (`number_of_particles++`). The C++ standard leaves the signed
  overflow of `++` undefined; `wrap_int` is what the compiled increment stores.
* `double` is IEEE 754 binary64 by its bit fields (a sign bit, an 11-bit biased
  exponent, a 52-bit fraction), with the comparisons `<` and `>=` and the correctly
  rounded `/` of the default rounding mode (round to nearest, ties to even), as on
  x86-64: a NaN operand of `/` comes back with its sign and payload, quieted. A decimal
  literal denotes the nearest double.
* `std::cout` is the text a call writes, returned next to the object after the call and
  the value returned (`std::endl` writes a line feed).
-/

set_option maxRecDepth 100000
set_option exponentiation.threshold 5000

namespace Assignment3

/-! ## `int` -/

/-- Largest value of a 32-bit `int`. -/
def INT_MAX : Int := 2147483647

/-- Smallest value of a 32-bit `int`. -/
def INT_MIN : Int := -2147483648

/-- The value is one a 32-bit `int` can hold. -/
def is_int (z : Int) : Prop := INT_MIN ≤ z ∧ z ≤ INT_MAX

instance (z : Int) : Decidable (is_int z) := by
  unfold is_int; infer_instance

/-- Two's complement reduction to 32 bits: the value an `int` holds after an
arithmetic result `z` is stored in it. -/
def wrap_int (z : Int) : Int := (z + 2147483648) % 4294967296 - 2147483648

/-! ## `double` -/

/-- An IEEE 754 binary64 value by its three bit fields. -/
structure Double where
  sign : Bool
  expo : Fin 2048
  frac : Fin 4503599627370496
deriving DecidableEq

namespace Double

/-- The double with the given sign, biased exponent and fraction, each reduced to
its field width. -/
def of_fields (s : Bool) (e f : Nat) : Double :=
  ⟨s, ⟨e % 2048, Nat.mod_lt _ (by decide)⟩, ⟨f % 4503599627370496, Nat.mod_lt _ (by decide)⟩⟩

/-- Signed infinity. -/
def inf (s : Bool) : Double := of_fields s 2047 0

/-- Signed zero. -/
def zero (s : Bool) : Double := of_fields s 0 0

/-- The quiet NaN an invalid operation (`0/0`, `inf/inf`) produces on x86-64: the
default NaN `0xFFF8000000000000`. -/
def nan : Double := of_fields true 2047 2251799813685248

/-- Not a number: exponent field all ones, fraction not zero. -/
def is_nan (x : Double) : Bool := x.expo.val == 2047 && x.frac.val != 0

/-- Infinite: exponent field all ones, fraction zero. -/
def is_inf (x : Double) : Bool := x.expo.val == 2047 && x.frac.val == 0

/-- Magnitude in units of `2^-1074` (the spacing of the subnormals). A finite `x` has
`|x| = mag x * 2^-1074`; for an infinity the same formula gives `2^2098`, above every
finite magnitude. -/
def mag (x : Double) : Nat :=
  if x.expo.val = 0 then x.frac.val
  else (4503599627370496 + x.frac.val) * 2 ^ (x.expo.val - 1)

/-- Signed magnitude: the position of a non-NaN value in the order of the doubles
(`-0` and `+0` coincide). -/
def key (x : Double) : Int := if x.sign then -(x.mag : Int) else (x.mag : Int)

/-- The comparison `x < y` of C++ on doubles: false when either side is NaN. -/
def lt (x y : Double) : Bool := !x.is_nan && !y.is_nan && decide (x.key < y.key)

/-- The comparison `x >= y` of C++ on doubles: false when either side is NaN. -/
def ge (x y : Double) : Bool := !x.is_nan && !y.is_nan && decide (y.key ≤ x.key)

/-- Floor of the binary logarithm, by halving (`fuel` bounds the number of halvings). -/
def ilog2_aux : Nat → Nat → Nat
  | 0, _ => 0
  | fuel + 1, n => if n < 2 then 0 else ilog2_aux fuel (n / 2) + 1

/-- Floor of the binary logarithm of `n` (0 for `n = 0`). -/
def ilog2 (n : Nat) : Nat := ilog2_aux n n

/-- The integer nearest to `n / d`, a tie going to the even one. -/
def round_half_even (n d : Nat) : Nat :=
  let q := n / d
  let r := n % d
  if 2 * r < d then q
  else if d < 2 * r then q + 1
  else if q % 2 = 0 then q else q + 1

/-- The fields for a normal result, or infinity when the exponent overflows. -/
def pack (s : Bool) (e f : Nat) : Double :=
  if 2047 ≤ e then inf s else of_fields s e f

/-- The double nearest to `± a / b` (for `a, b > 0`), ties to even, overflow to infinity.
With `t = a * 2^1074` the quotient `t / b` is the magnitude in units of `2^-1074`:
below `2^52` the result is subnormal and is rounded to a unit; from `2^52` on it is
rounded to 53 significant bits. -/
def round_quot (s : Bool) (a b : Nat) : Double :=
  let t := a * 2 ^ 1074
  let q0 := t / b
  if q0 < 4503599627370496 then
    let n := round_half_even t b
    if n < 4503599627370496 then of_fields s 0 n else of_fields s 1 0
  else
    let sh := ilog2 q0 - 52
    let n := round_half_even t (b * 2 ^ sh)
    if n < 9007199254740992 then pack s (sh + 1) (n - 4503599627370496)
    else pack s (sh + 2) 0

/-- A NaN operand as an operation returns it: the sign and the payload are kept and
the quiet bit (the top bit of the fraction) is set. -/
def quiet (x : Double) : Double :=
  of_fields x.sign 2047
    (if x.frac.val < 2251799813685248 then x.frac.val + 2251799813685248 else x.frac.val)

/-- The division `x / y` of IEEE 754 in the default rounding mode, as the `divsd`
instruction of x86-64 computes it: a NaN operand is returned quieted (the first operand
when both are NaN), an invalid operation gives the default NaN. -/
def div (x y : Double) : Double :=
  let s := xor x.sign y.sign
  if x.is_nan then quiet x
  else if y.is_nan then quiet y
  else if x.is_inf then (if y.is_inf then nan else inf s)
  else if y.is_inf then zero s
  else if y.mag = 0 then (if x.mag = 0 then nan else inf s)
  else if x.mag = 0 then zero s
  else round_quot s x.mag y.mag

/-- The double a decimal literal `m e k` (that is `m * 10^k`) denotes: the nearest one. -/
def lit (m : Nat) (k : Int) : Double :=
  if m = 0 then zero false
  else round_quot false (m * 10 ^ k.toNat) (10 ^ (-k).toNat)

/-- The double `1.0`. -/
def one : Double := lit 1 0

end Double

/-- The constant `speed_of_light` of the source, `2.99792458e8`. -/
def speed_of_light : Double := Double.lit 299792458 0

/-! ## Calls -/

/-- What a call leaves behind: the object after the call, the value returned and the
text written to `std::cout`. -/
structure Effect (σ ρ : Type) where
  state : σ
  ret : ρ
  out : String

/-! ## `class lepton` -/

/-- The data members of `class lepton`. -/
structure lepton where
  particle_type : String
  rest_mass : Double
  charge : Int
  velocity : Double
  beta : Double
deriving DecidableEq

namespace lepton

/-- The member `set_particle_type`. -/
def set_particle_type (l : lepton) (input_particle_type : String) : Effect lepton Unit :=
  { state := { l with particle_type := input_particle_type }, ret := (), out := "" }

/-- The member `set_rest_mass`. -/
def set_rest_mass (l : lepton) (input_mass : Double) : Effect lepton Unit :=
  { state := { l with rest_mass := input_mass }, ret := (), out := "" }

/-- The member `set_charge`. -/
def set_charge (l : lepton) (input_charge : Int) : Effect lepton Unit :=
  if input_charge = 1 ∨ input_charge = -1 then
    { state := { l with charge := input_charge }, ret := (), out := "" }
  else
    { state := l, ret := (),
      out := "Invalid charge. Must be 1 (for particles) or -1 (for anti-particles)\n" }

/-- The member `set_velocity`. -/
def set_velocity (l : lepton) (input_velocity : Double) : Effect lepton Unit :=
  if Double.lt input_velocity speed_of_light then
    { state := { l with velocity := input_velocity,
                        beta := Double.div input_velocity speed_of_light },
      ret := (), out := "" }
  else
    { state := l, ret := (), out := "Invalid velocity. Please ensure v < c. \n" }

/-- The member `get_particle_type`. -/
def get_particle_type (l : lepton) : String := l.particle_type

/-- The member `get_rest_mass`. -/
def get_rest_mass (l : lepton) : Double := l.rest_mass

/-- The member `get_charge`. -/
def get_charge (l : lepton) : Int := l.charge

/-- The member `get_velocity`. -/
def get_velocity (l : lepton) : Double := l.velocity

/-- The member `get_beta`. -/
def get_beta (l : lepton) : Double := l.beta

end lepton

set_option linter.dupNamespace false in
/-- The four-argument constructor: the members are initialised from the arguments, a
warning is written when `velocity >= speed_of_light`, and `beta` is computed either way. -/
def lepton.lepton (input_particle_type : String) (input_mass : Double) (input_charge : Int)
    (input_velocity : Double) : Effect lepton Unit :=
  { state :=
      { particle_type := input_particle_type
        rest_mass := input_mass
        charge := input_charge
        velocity := input_velocity
        beta := Double.div input_velocity speed_of_light }
    ret := ()
    out :=
      if Double.ge input_velocity speed_of_light then
        "\nOne or more of your beta values are incorrect, please ensure v < c for all particles.\n"
      else "" }

/-! ## `class lepton_detector` -/

/-- The data members of `class lepton_detector`. -/
structure lepton_detector where
  detector_type : String
  detector_status : Bool
  number_of_particles : Int
deriving DecidableEq

namespace lepton_detector

/-- The member `turn_off_detector`. -/
def turn_off_detector (d : lepton_detector) : Effect lepton_detector Unit :=
  { state := { d with detector_status := false }, ret := (),
    out := "\nThe " ++ d.detector_type ++ " is off.\n" }

/-- The member `turn_on_detector`. -/
def turn_on_detector (d : lepton_detector) : Effect lepton_detector Unit :=
  { state := { d with detector_status := true }, ret := (),
    out := "The " ++ d.detector_type ++ " is on.\n\n" }

/-- The text `int` values are written as by `operator<<`. -/
def show_int (z : Int) : String := toString z

/-- The member `print_detector_data`. -/
def print_detector_data (d : lepton_detector) : Effect lepton_detector Unit :=
  { state := d, ret := (),
    out := "\nThe " ++ d.detector_type ++ " detected " ++ show_int d.number_of_particles
      ++ " particles\n" }

/-- The member `detect_particle`. -/
def detect_particle (d : lepton_detector) (particle : lepton) : Effect lepton_detector Int :=
  if d.detector_status = true ∧
      ((d.detector_type = "tracker" ∧
          (particle.get_particle_type = "electron" ∨
           particle.get_particle_type = "muon" ∨
           particle.get_particle_type = "anti-electron" ∨
           particle.get_particle_type = "anti-muon")) ∨
       (d.detector_type = "calorimeter" ∧
          (particle.get_particle_type = "electron" ∨
           particle.get_particle_type = "anti-electron")) ∨
       (d.detector_type = "muon chamber" ∧
          (particle.get_particle_type = "muon" ∨
           particle.get_particle_type = "anti-muon"))) then
    { state := { d with number_of_particles := wrap_int (d.number_of_particles + 1) }
      ret := 1
      out := "The " ++ d.detector_type ++ " detected a " ++ particle.get_particle_type ++ "\n" }
  else if d.detector_status = false ∨
      particle.get_particle_type ≠ "electron" ∨
      particle.get_particle_type ≠ "muon" ∨
      particle.get_particle_type ≠ "anti-electron" ∨
      particle.get_particle_type ≠ "anti-muon" then
    { state := d, ret := 0, out := "" }
  else
    { state := d, ret := 0, out := "" }

end lepton_detector

set_option linter.dupNamespace false in
/-- The two-argument constructor. -/
def lepton_detector.lepton_detector (input_detector_type : String) (input_detector_status : Bool) :
    lepton_detector :=
  { detector_type := input_detector_type
    detector_status := input_detector_status
    number_of_particles := 0 }

/-! ## `print_lepton_data` -/

/-- The text a double is written as under `std::fixed` and `std::setprecision(3)`: the
exact value rounded to three decimals (ties to even), at least one digit before the
point and three after it. -/
def show_fixed3 (x : Double) : String :=
  let sgn := if x.sign then "-" else ""
  if x.is_nan then sgn ++ "nan"
  else if x.is_inf then sgn ++ "inf"
  else
    let n := Double.round_half_even (x.mag * 1000) (2 ^ 1074)
    let f := n % 1000
    sgn ++ toString (n / 1000) ++ "."
      ++ (if f < 10 then "00" else if f < 100 then "0" else "") ++ toString f

/-- The friend function `print_lepton_data`. -/
def print_lepton_data (input_lepton : lepton) : String :=
  "\nType of lepton: " ++ input_lepton.particle_type ++ "\n"
    ++ "Rest Mass (MeV): " ++ show_fixed3 input_lepton.rest_mass ++ "\n"
    ++ "Charge: " ++ lepton_detector.show_int input_lepton.charge ++ "\n"
    ++ "Velocity (m/s): " ++ show_fixed3 input_lepton.velocity ++ "\n"
    ++ "Beta Value: " ++ show_fixed3 input_lepton.beta ++ "\n\n"

/-! ## The driver -/

/-- The eight constructor calls of the initialiser list of `lepton_information_vector`
in `main`, in list order. -/
def lepton_information_calls : List (Effect lepton Unit) :=
  [ lepton.lepton "electron" (Double.lit 511 (-3)) (-1) (Double.lit 12 8),
    lepton.lepton "electron" (Double.lit 511 (-3)) (-1) (Double.lit 46 6),
    lepton.lepton "muon" (Double.lit 1057 (-1)) (-1) (Double.lit 33 5),
    lepton.lepton "muon" (Double.lit 1057 (-1)) (-1) (Double.lit 71 6),
    lepton.lepton "muon" (Double.lit 1057 (-1)) (-1) (Double.lit 63 6),
    lepton.lepton "muon" (Double.lit 1057 (-1)) (-1) (Double.lit 91 4),
    lepton.lepton "anti-electron" (Double.lit 511 (-3)) 1 (Double.lit 90 6),
    lepton.lepton "anti-muon" (Double.lit 1057 (-1)) 1 (Double.lit 70 6) ]

/-- The vector `lepton_information_vector` of `main`. -/
def lepton_information_vector : List lepton :=
  lepton_information_calls.map (fun c => c.state)

/-- A loop `for (particle : particles) d.detect_particle(particle);` on one detector:
the detector afterwards, the values the calls returned in call order, and the text
written. -/
def detect_all (d : lepton_detector) : List lepton → Effect lepton_detector (List Int)
  | [] => { state := d, ret := [], out := "" }
  | particle :: rest =>
    let e := d.detect_particle particle
    let r := detect_all e.state rest
    { state := r.state, ret := e.ret :: r.ret, out := e.out ++ r.out }

/-- One call of a member function of a detector that has been constructed. -/
inductive detector_call where
  | turn_on_detector
  | turn_off_detector
  | print_detector_data
  | detect_particle (particle : lepton)

/-- A sequence of member calls on one detector: the detector afterwards, the values
the `detect_particle` calls among them returned, in call order, and the text written. -/
def run_calls (d : lepton_detector) : List detector_call → Effect lepton_detector (List Int)
  | [] => { state := d, ret := [], out := "" }
  | detector_call.turn_on_detector :: rest =>
    let e := d.turn_on_detector
    let r := run_calls e.state rest
    { state := r.state, ret := r.ret, out := e.out ++ r.out }
  | detector_call.turn_off_detector :: rest =>
    let e := d.turn_off_detector
    let r := run_calls e.state rest
    { state := r.state, ret := r.ret, out := e.out ++ r.out }
  | detector_call.print_detector_data :: rest =>
    let e := d.print_detector_data
    let r := run_calls e.state rest
    { state := r.state, ret := r.ret, out := e.out ++ r.out }
  | detector_call.detect_particle particle :: rest =>
    let e := d.detect_particle particle
    let r := run_calls e.state rest
    { state := r.state, ret := e.ret :: r.ret, out := e.out ++ r.out }

/-- The first loop of `main`: every particle is presented to the tracker, the
calorimeter and the muon chamber, in that order. -/
def detect_loop (tracker calorimeter muon_chamber : lepton_detector) :
    List lepton → Effect (lepton_detector × lepton_detector × lepton_detector) Unit
  | [] => { state := (tracker, calorimeter, muon_chamber), ret := (), out := "" }
  | particle :: rest =>
    let e1 := tracker.detect_particle particle
    let e2 := calorimeter.detect_particle particle
    let e3 := muon_chamber.detect_particle particle
    let r := detect_loop e1.state e2.state e3.state rest
    { state := r.state, ret := (), out := e1.out ++ e2.out ++ e3.out ++ r.out }

/-- The second loop of `main`: `print_lepton_data` on every particle. -/
def print_loop : List lepton → String
  | [] => ""
  | particle :: rest => print_lepton_data particle ++ print_loop rest

/-- The function `main`: the three detectors as they are at the end, the value returned
and everything written. -/
def main : Effect (lepton_detector × lepton_detector × lepton_detector) Int :=
  let built := String.join (lepton_information_calls.map (fun c => c.out))
  let tracker := lepton_detector.lepton_detector "tracker" false
  let calorimeter := lepton_detector.lepton_detector "calorimeter" false
  let muon_chamber := lepton_detector.lepton_detector "muon chamber" false
  let on1 := tracker.turn_on_detector
  let on2 := calorimeter.turn_on_detector
  let on3 := muon_chamber.turn_on_detector
  let looped := detect_loop on1.state on2.state on3.state lepton_information_vector
  let p1 := looped.state.1.print_detector_data
  let p2 := looped.state.2.1.print_detector_data
  let p3 := looped.state.2.2.print_detector_data
  let printed := print_loop lepton_information_vector
  let off1 := p1.state.turn_off_detector
  let off2 := p2.state.turn_off_detector
  let off3 := p3.state.turn_off_detector
  { state := (off1.state, off2.state, off3.state)
    ret := 0
    out := built ++ on1.out ++ on2.out ++ on3.out ++ looped.out
      ++ p1.out ++ p2.out ++ p3.out ++ printed ++ off1.out ++ off2.out ++ off3.out }

/-! ## The specification's matching table -/

/-- The matching table of the specification: the lepton categories a detector category
recognises, by exact string equality. -/
def recognises (detector_category lepton_category : String) : Prop :=
  (detector_category = "tracker" ∧
    (lepton_category = "electron" ∨ lepton_category = "muon" ∨
      lepton_category = "anti-electron" ∨ lepton_category = "anti-muon")) ∨
  (detector_category = "calorimeter" ∧
    (lepton_category = "electron" ∨ lepton_category = "anti-electron")) ∨
  (detector_category = "muon chamber" ∧
    (lepton_category = "muon" ∨ lepton_category = "anti-muon"))

instance (a b : String) : Decidable (recognises a b) := by
  unfold recognises; infer_instance

/-- The count the specification describes for a detector of the given category and
power state after a sequence of calls: the number of leptons presented while the
detector is powered on whose category its table recognises. -/
def presented_while_on (category : String) : Bool → List detector_call → Nat
  | _, [] => 0
  | _, detector_call.turn_on_detector :: rest => presented_while_on category true rest
  | _, detector_call.turn_off_detector :: rest => presented_while_on category false rest
  | powered, detector_call.print_detector_data :: rest =>
    presented_while_on category powered rest
  | powered, detector_call.detect_particle particle :: rest =>
    (if powered = true ∧ recognises category particle.particle_type then 1 else 0)
      + presented_while_on category powered rest

/-! ## Sequences of mutator calls -/

/-- One call of a mutator of a lepton that has been constructed. -/
inductive lepton_call where
  | set_particle_type (input_particle_type : String)
  | set_rest_mass (input_mass : Double)
  | set_charge (input_charge : Int)
  | set_velocity (input_velocity : Double)

/-- The mutator call applied to a lepton. -/
def apply_call (l : lepton) : lepton_call → Effect lepton Unit
  | lepton_call.set_particle_type input_particle_type => l.set_particle_type input_particle_type
  | lepton_call.set_rest_mass input_mass => l.set_rest_mass input_mass
  | lepton_call.set_charge input_charge => l.set_charge input_charge
  | lepton_call.set_velocity input_velocity => l.set_velocity input_velocity

/-- A sequence of mutator calls on one lepton: the lepton afterwards and the text
written. -/
def run_mutators (l : lepton) : List lepton_call → Effect lepton Unit
  | [] => { state := l, ret := (), out := "" }
  | call :: rest =>
    let e := apply_call l call
    let r := run_mutators e.state rest
    { state := r.state, ret := (), out := e.out ++ r.out }

/-- The physical-validity predicate of the specification: the velocity is strictly below
the speed of light and the charge is +1 or -1. -/
def physically_valid (l : lepton) : Prop :=
  Double.lt l.velocity speed_of_light = true ∧ (l.charge = 1 ∨ l.charge = -1)

instance (l : lepton) : Decidable (physically_valid l) := by
  unfold physically_valid; infer_instance

/-! ## Theorems: `double` arithmetic -/

namespace Double

theorem ilog2_aux_spec : ∀ (fuel n : Nat), n ≤ fuel → n ≠ 0 →
    2 ^ ilog2_aux fuel n ≤ n ∧ n < 2 ^ (ilog2_aux fuel n + 1) := by
  intro fuel
  induction fuel with
  | zero => intro n h h0; omega
  | succ k ih =>
    intro n h h0
    unfold ilog2_aux
    split_ifs with h2
    · have : n = 1 := by omega
      subst this
      exact ⟨by norm_num, by norm_num⟩
    · have hk := ih (n / 2) (by omega) (by omega)
      obtain ⟨h1, h3⟩ := hk
      constructor
      · rw [pow_succ]; omega
      · rw [pow_succ]; omega

theorem ilog2_spec (n : Nat) (h0 : n ≠ 0) : 2 ^ ilog2 n ≤ n ∧ n < 2 ^ (ilog2 n + 1) :=
  ilog2_aux_spec n n (le_refl n) h0

theorem le_ilog2 (n k : Nat) (h : 2 ^ k ≤ n) : k ≤ ilog2 n := by
  have hn : n ≠ 0 := by
    have := Nat.pos_pow_of_pos k (by norm_num : 0 < 2)
    omega
  have h2 := (ilog2_spec n hn).2
  have : 2 ^ k < 2 ^ (ilog2 n + 1) := lt_of_le_of_lt h h2
  have := (Nat.pow_lt_pow_iff_right (by norm_num : 1 < 2)).1 this
  omega

theorem ilog2_lt (n k : Nat) (h0 : n ≠ 0) (h : n < 2 ^ k) : ilog2 n < k := by
  have h1 := (ilog2_spec n h0).1
  have : 2 ^ ilog2 n < 2 ^ k := lt_of_le_of_lt h1 h
  exact (Nat.pow_lt_pow_iff_right (by norm_num : 1 < 2)).1 this

theorem round_half_even_le (n d k : Nat) (hd : 0 < d) (h : n ≤ k * d) :
    round_half_even n d ≤ k := by
  unfold round_half_even
  have hq : n / d ≤ k := Nat.div_le_of_le_mul (by rw [Nat.mul_comm]; exact h)
  have hdm := Nat.div_add_mod n d
  have hml := Nat.mod_lt n hd
  by_cases hk : n / d = k
  · have : n % d = 0 := by
      have : d * (n / d) = k * d := by rw [hk, Nat.mul_comm]
      omega
    simp only [this]
    rw [if_pos (by omega)]
    exact hq
  · have : n / d + 1 ≤ k := by omega
    simp only
    split_ifs <;> omega

theorem of_fields_sign (s : Bool) (e f : Nat) : (of_fields s e f).sign = s := rfl

theorem of_fields_mag (s : Bool) (e f : Nat) :
    (of_fields s e f).mag =
      if e % 2048 = 0 then f % 4503599627370496
      else (4503599627370496 + f % 4503599627370496) * 2 ^ (e % 2048 - 1) := rfl

theorem of_fields_is_nan (s : Bool) (e f : Nat) :
    (of_fields s e f).is_nan = (e % 2048 == 2047 && f % 4503599627370496 != 0) := rfl

theorem pack_sign (s : Bool) (e f : Nat) : (pack s e f).sign = s := by
  unfold pack inf
  split_ifs <;> rfl

theorem pack_is_nan (s : Bool) (e f : Nat) : (pack s e f).is_nan = false := by
  unfold pack inf
  split_ifs with h
  · rfl
  · rw [of_fields_is_nan]
    have : e % 2048 ≠ 2047 := by omega
    simp [this]

/-- A packed result with exponent field at least 1023 has magnitude at least 1. -/
theorem le_pack_mag (s : Bool) (e f : Nat) (h : 1023 ≤ e) :
    2 ^ 1074 ≤ (pack s e f).mag := by
  unfold pack inf
  have h52 : (4503599627370496 : Nat) = 2 ^ 52 := by norm_num
  split_ifs with h2
  · rw [of_fields_mag]
    have : (2047 : Nat) % 2048 = 2047 := by norm_num
    rw [this, if_neg (by norm_num)]
    calc 2 ^ 1074 = 2 ^ 52 * 2 ^ 1022 := by rw [← pow_add]
      _ ≤ (4503599627370496 + 0 % 4503599627370496) * 2 ^ (2047 - 1) := by
        rw [h52]
        exact Nat.mul_le_mul (by omega) (Nat.pow_le_pow_right (by norm_num) (by norm_num))
  · rw [of_fields_mag]
    have he : e % 2048 = e := Nat.mod_eq_of_lt (by omega)
    rw [he, if_neg (by omega)]
    calc 2 ^ 1074 = 2 ^ 52 * 2 ^ 1022 := by rw [← pow_add]
      _ ≤ (4503599627370496 + f % 4503599627370496) * 2 ^ (e - 1) := by
        rw [h52]
        exact Nat.mul_le_mul (by omega) (Nat.pow_le_pow_right (by norm_num) (by omega))

/-- A packed result with exponent field `sh + 1` has magnitude below `2^53 * 2^sh`. -/
theorem pack_mag_lt (s : Bool) (sh f : Nat) (h : sh ≤ 1021) :
    (pack s (sh + 1) f).mag < 2 ^ 53 * 2 ^ sh := by
  unfold pack
  have h52 : (4503599627370496 : Nat) = 2 ^ 52 := by norm_num
  rw [if_neg (by omega), of_fields_mag]
  have he : (sh + 1) % 2048 = sh + 1 := Nat.mod_eq_of_lt (by omega)
  rw [he, if_neg (by omega), Nat.add_sub_cancel]
  have hf : f % 4503599627370496 < 4503599627370496 := Nat.mod_lt _ (by norm_num)
  have hp : 0 < 2 ^ sh := Nat.pos_pow_of_pos sh (by norm_num)
  apply Nat.mul_lt_mul_of_pos_right _ hp
  rw [show (2:Nat)^53 = 9007199254740992 by norm_num]
  omega

/-- The carry result with exponent field `sh + 2` has magnitude `2^53 * 2^sh`. -/
theorem pack_carry_mag (s : Bool) (sh : Nat) (h : sh ≤ 1020) :
    (pack s (sh + 2) 0).mag = 2 ^ 53 * 2 ^ sh := by
  unfold pack
  rw [if_neg (by omega), of_fields_mag]
  have he : (sh + 2) % 2048 = sh + 2 := Nat.mod_eq_of_lt (by omega)
  rw [he, if_neg (by omega)]
  have : sh + 2 - 1 = sh + 1 := by omega
  rw [this, pow_succ]
  norm_num
  ring

theorem round_quot_sign (s : Bool) (a b : Nat) : (round_quot s a b).sign = s := by
  unfold round_quot
  simp only
  split_ifs <;> first | rfl | exact pack_sign _ _ _

theorem round_quot_is_nan (s : Bool) (a b : Nat) : (round_quot s a b).is_nan = false := by
  unfold round_quot
  simp only
  split_ifs <;> first | rfl | exact pack_is_nan _ _ _

/-- Rounding a quotient that is at least 1 gives at least 1. -/
theorem le_round_quot_mag (s : Bool) (a b : Nat) (hb : 0 < b) (hab : b ≤ a) :
    2 ^ 1074 ≤ (round_quot s a b).mag := by
  unfold round_quot
  simp only
  have hq : 2 ^ 1074 ≤ a * 2 ^ 1074 / b := by
    rw [Nat.le_div_iff_mul_le hb]
    rw [Nat.mul_comm]
    exact Nat.mul_le_mul_right _ hab
  have h52 : (4503599627370496 : Nat) = 2 ^ 52 := by norm_num
  have hlt : ¬ a * 2 ^ 1074 / b < 4503599627370496 := by
    have : (2:Nat) ^ 52 ≤ 2 ^ 1074 := Nat.pow_le_pow_right (by norm_num) (by norm_num)
    omega
  rw [if_neg hlt]
  have hl := le_ilog2 _ _ hq
  split_ifs
  · exact le_pack_mag _ _ _ (by omega)
  · exact le_pack_mag _ _ _ (by omega)

/-- Rounding a quotient that is at most `1 - 2^-53` gives less than 1. -/
theorem round_quot_mag_lt (s : Bool) (a b : Nat) (hb : 0 < b)
    (hab : a * 2 ^ 53 ≤ b * (2 ^ 53 - 1)) :
    (round_quot s a b).mag < 2 ^ 1074 := by
  have h52 : (4503599627370496 : Nat) = 2 ^ 52 := by norm_num
  have h53 : (9007199254740992 : Nat) = 2 ^ 53 := by norm_num
  have hp : (2:Nat) ^ 52 < 2 ^ 1074 := Nat.pow_lt_pow_right (by norm_num) (by norm_num)
  have halt : a < b := by
    by_contra hc
    have : b * 2 ^ 53 ≤ a * 2 ^ 53 := Nat.mul_le_mul_right _ (by omega)
    have : b * (2 ^ 53 - 1) < b * 2 ^ 53 := Nat.mul_lt_mul_of_pos_left (by norm_num) hb
    omega
  have hq : a * 2 ^ 1074 / b < 2 ^ 1074 := by
    rw [Nat.div_lt_iff_lt_mul hb]
    rw [Nat.mul_comm]
    exact Nat.mul_lt_mul_of_pos_left halt (Nat.pos_pow_of_pos _ (by norm_num))
  unfold round_quot
  simp only
  split_ifs with h1 h2 h3
  · rw [of_fields_mag]
    simp only [Nat.zero_mod, if_true]
    rw [Nat.mod_eq_of_lt h2]
    omega
  · rw [of_fields_mag]
    norm_num
  · have hq0 : a * 2 ^ 1074 / b ≠ 0 := by omega
    have hl := ilog2_lt _ _ hq0 hq
    have hsh : ilog2 (a * 2 ^ 1074 / b) - 52 ≤ 1021 := by omega
    calc _ < 2 ^ 53 * 2 ^ (ilog2 (a * 2 ^ 1074 / b) - 52) := pack_mag_lt _ _ _ hsh
      _ ≤ 2 ^ 53 * 2 ^ 1021 := Nat.mul_le_mul_left _ (Nat.pow_le_pow_right (by norm_num) hsh)
      _ = 2 ^ 1074 := by rw [← pow_add]
  · have hq0 : a * 2 ^ 1074 / b ≠ 0 := by omega
    have hl := ilog2_lt _ _ hq0 hq
    have hsh : ilog2 (a * 2 ^ 1074 / b) - 52 ≤ 1021 := by omega
    by_cases h1020 : ilog2 (a * 2 ^ 1074 / b) - 52 ≤ 1020
    · rw [pack_carry_mag _ _ h1020]
      calc 2 ^ 53 * 2 ^ (ilog2 (a * 2 ^ 1074 / b) - 52) ≤ 2 ^ 53 * 2 ^ 1020 :=
            Nat.mul_le_mul_left _ (Nat.pow_le_pow_right (by norm_num) h1020)
        _ < 2 ^ 53 * 2 ^ 1021 :=
            Nat.mul_lt_mul_of_pos_left (Nat.pow_lt_pow_right (by norm_num) (by norm_num))
              (by norm_num)
        _ = 2 ^ 1074 := by rw [← pow_add]
    · exfalso
      have hs : ilog2 (a * 2 ^ 1074 / b) - 52 = 1021 := by omega
      rw [hs] at h3
      have hle : round_half_even (a * 2 ^ 1074) (b * 2 ^ 1021) ≤ 2 ^ 53 - 1 := by
        apply round_half_even_le
        · exact Nat.mul_pos hb (Nat.pos_pow_of_pos _ (by norm_num))
        · calc a * 2 ^ 1074 = (a * 2 ^ 53) * 2 ^ 1021 := by
                rw [Nat.mul_assoc, ← pow_add]
            _ ≤ (b * (2 ^ 53 - 1)) * 2 ^ 1021 := Nat.mul_le_mul_right _ hab
            _ = (2 ^ 53 - 1) * (b * 2 ^ 1021) := by ring
      have : (2:Nat) ^ 53 - 1 < 9007199254740992 := by norm_num
      omega

theorem speed_of_light_sign : speed_of_light.sign = false := by decide
theorem speed_of_light_is_nan : speed_of_light.is_nan = false := by decide
theorem speed_of_light_is_inf : speed_of_light.is_inf = false := by decide
theorem speed_of_light_mag : speed_of_light.mag = 5029682823036928 * 2 ^ 1050 := by decide
theorem one_is_nan : Double.one.is_nan = false := by decide
theorem one_sign : Double.one.sign = false := by decide
theorem one_mag : Double.one.mag = 2 ^ 1074 := by decide

/-- The bit fields of three values of the model, as the hardware has them:
`2.99792458e8` is `0x41B1DE784A000000`, `0.511` is `0x3FE05A1CAC083127`, and the quotient
`1.2e9 / 2.99792458e8` is `0x401002D5E9FFCD8B`. -/
theorem bit_fields_examples :
    speed_of_light = of_fields false 0x41B 0x1DE784A000000 ∧
    lit 511 (-3) = of_fields false 0x3FE 0x05A1CAC083127 ∧
    div (lit 12 8) speed_of_light = of_fields false 0x401 0x002D5E9FFCD8B := by
  decide

/-- Division returns a NaN first operand quieted: same sign, same payload, quiet bit
set. -/
theorem div_of_is_nan (x y : Double) (h : x.is_nan = true) : div x y = quiet x := by
  unfold div
  simp only [h, if_true]

/-- The NaN results of the model, as the `divsd` instruction has them: the quiet NaN
`0xFFF8000000000000` and the signalling NaN `0x7FF0000000000001` divided by
`2.99792458e8` give `0xFFF8000000000000` and `0x7FF8000000000001`, a NaN divisor comes
back the same way, and `inf / inf` gives the default NaN `0xFFF8000000000000`. -/
theorem nan_division_examples :
    div (of_fields true 0x7FF 0x8000000000000) speed_of_light
      = of_fields true 0x7FF 0x8000000000000 ∧
    div (of_fields false 0x7FF 1) speed_of_light = of_fields false 0x7FF 0x8000000000001 ∧
    div speed_of_light (of_fields true 0x7FF 0x400000000BEEF)
      = of_fields true 0x7FF 0xC00000000BEEF ∧
    div (inf false) (inf false) = of_fields true 0x7FF 0x8000000000000 := by
  decide

theorem speed_of_light_key : speed_of_light.key = ((5029682823036928 * 2 ^ 1050 : Nat) : Int) := by
  unfold key
  rw [speed_of_light_sign, speed_of_light_mag]
  rfl

theorem one_key : Double.one.key = ((2 ^ 1074 : Nat) : Int) := by
  unfold key
  rw [one_sign, one_mag]
  rfl

/-- `x >= y` excludes `x < y`. -/
theorem lt_eq_false_of_ge (x y : Double) (h : ge x y = true) : lt x y = false := by
  unfold ge at h
  unfold lt
  simp only [Bool.and_eq_true, decide_eq_true_eq] at h
  simp only [Bool.and_eq_false_imp, Bool.and_eq_true, decide_eq_false_iff_not]
  intro _
  omega

/-- `x < y` excludes `x >= y`. -/
theorem ge_eq_false_of_lt (x y : Double) (h : lt x y = true) : ge x y = false := by
  unfold lt at h
  unfold ge
  simp only [Bool.and_eq_true, decide_eq_true_eq] at h
  simp only [Bool.and_eq_false_imp, Bool.and_eq_true, decide_eq_false_iff_not]
  intro _
  omega

/-- An infinity has the magnitude `2^52 * 2^2046`. -/
theorem mag_of_is_inf (x : Double) (h : x.is_inf = true) :
    x.mag = 4503599627370496 * 2 ^ 2046 := by
  unfold is_inf at h
  simp only [Bool.and_eq_true, beq_iff_eq] at h
  unfold mag
  rw [h.1, h.2, if_neg (by norm_num), Nat.add_zero]

/-- The doubles below `speed_of_light` are at least one unit in the last place below:
`2^1050` in units of `2^-1074`. -/
theorem mag_add_ulp_le (x : Double) (h : x.mag < 5029682823036928 * 2 ^ 1050) :
    x.mag + 2 ^ 1050 ≤ 5029682823036928 * 2 ^ 1050 := by
  unfold mag at h ⊢
  have hf := x.frac.isLt
  have hP : 0 < 2 ^ 1050 := Nat.pos_pow_of_pos 1050 (by norm_num)
  split_ifs at h ⊢ with he
  · have : (4503599627370496 : Nat) ≤ 4503599627370496 * 2 ^ 1050 := Nat.le_mul_of_pos_right _ hP
    have h2 : 5029682823036928 * 2 ^ 1050 = 4503599627370496 * 2 ^ 1050 + 526083195666432 * 2 ^ 1050 := by
      rw [← Nat.add_mul]
    have : 2 ^ 1050 ≤ 526083195666432 * 2 ^ 1050 := Nat.le_mul_of_pos_left _ (by norm_num)
    omega
  · by_cases hx : 1050 ≤ x.expo.val - 1
    · obtain ⟨j, hj⟩ := Nat.exists_eq_add_of_le hx
      rw [hj, Nat.add_comm 1050 j, pow_add, ← Nat.mul_assoc] at h ⊢
      have hk := Nat.lt_of_mul_lt_mul_right h
      calc (4503599627370496 + x.frac.val) * 2 ^ j * 2 ^ 1050 + 2 ^ 1050
          = ((4503599627370496 + x.frac.val) * 2 ^ j + 1) * 2 ^ 1050 := by ring
        _ ≤ 5029682823036928 * 2 ^ 1050 := Nat.mul_le_mul_right _ hk
    · have hle : x.expo.val - 1 ≤ 1049 := by omega
      have h1 : (4503599627370496 + x.frac.val) * 2 ^ (x.expo.val - 1)
          ≤ 9007199254740992 * 2 ^ 1049 :=
        Nat.mul_le_mul (by omega) (Nat.pow_le_pow_right (by norm_num) hle)
      have h2 : 9007199254740992 * 2 ^ 1049 = 4503599627370496 * 2 ^ 1050 := by
        rw [show (1050 : Nat) = 1049 + 1 from rfl, pow_succ]; ring
      have h3 : 5029682823036928 * 2 ^ 1050
          = 4503599627370496 * 2 ^ 1050 + 2 ^ 1050 + 526083195666431 * 2 ^ 1050 := by ring
      omega

/-- A double below `speed_of_light` has a quotient by it of at most `1 - 2^-53`. -/
theorem mag_quot_bound (x : Double) (h : x.mag < 5029682823036928 * 2 ^ 1050) :
    x.mag * 2 ^ 53 ≤ 5029682823036928 * 2 ^ 1050 * (2 ^ 53 - 1) := by
  have h1 := mag_add_ulp_le x h
  have h2 : (x.mag + 2 ^ 1050) * 2 ^ 53 ≤ 5029682823036928 * 2 ^ 1050 * 2 ^ 53 :=
    Nat.mul_le_mul_right _ h1
  have h3 : 5029682823036928 * 2 ^ 1050 ≤ 2 ^ 1050 * 2 ^ 53 := by
    rw [Nat.mul_comm]
    exact Nat.mul_le_mul_left _ (by norm_num)
  have h4 : 5029682823036928 * 2 ^ 1050 * (2 ^ 53 - 1)
      = 5029682823036928 * 2 ^ 1050 * 2 ^ 53 - 5029682823036928 * 2 ^ 1050 := by
    rw [Nat.mul_sub, Nat.mul_one]
  rw [h4]
  rw [Nat.add_mul] at h2
  omega

theorem speed_of_light_mag_pos : 0 < 5029682823036928 * 2 ^ 1050 :=
  Nat.mul_pos (by norm_num) (Nat.pos_pow_of_pos 1050 (by norm_num))

/-- A value that is not below 1 after rounding: `ge _ one` from the sign, the NaN test
and the magnitude. -/
theorem ge_one_of_mag (r : Double) (hs : r.sign = false) (hn : r.is_nan = false)
    (hm : 2 ^ 1074 ≤ r.mag) : ge r Double.one = true := by
  unfold ge
  rw [hn, one_is_nan, one_key]
  unfold key
  rw [hs]
  simp only [Bool.not_false, Bool.true_and, decide_eq_true_eq, Bool.false_eq_true, if_false]
  exact_mod_cast hm

/-- A positive value below 1: `lt _ one` from the NaN test and the magnitude. -/
theorem lt_one_of_mag (r : Double) (hn : r.is_nan = false)
    (hm : r.mag < 2 ^ 1074) : lt r Double.one = true := by
  unfold lt
  rw [hn, one_is_nan, one_key]
  unfold key
  simp only [Bool.not_false, Bool.true_and, decide_eq_true_eq]
  have : ((r.mag : Nat) : Int) < ((2 ^ 1074 : Nat) : Int) := by exact_mod_cast hm
  split_ifs <;> omega

/-- A value with the sign bit set is below 1. -/
theorem lt_one_of_sign (r : Double) (hs : r.sign = true) (hn : r.is_nan = false) :
    lt r Double.one = true := by
  unfold lt
  rw [hn, one_is_nan, one_key]
  unfold key
  rw [hs]
  simp only [Bool.not_false, Bool.true_and, decide_eq_true_eq, if_true]
  have : (0 : Int) < ((2 ^ 1074 : Nat) : Int) := by
    exact_mod_cast Nat.pos_pow_of_pos 1074 (by norm_num)
  omega

/-- Division by `speed_of_light` of a value at least `speed_of_light` gives at least 1. -/
theorem div_speed_of_light_ge_one (x : Double) (h : ge x speed_of_light = true) :
    ge (div x speed_of_light) Double.one = true := by
  unfold ge at h
  rw [speed_of_light_is_nan, speed_of_light_key] at h
  simp only [Bool.not_false, Bool.and_true, Bool.and_eq_true, Bool.not_eq_true',
    decide_eq_true_eq] at h
  obtain ⟨hxn, hk⟩ := h
  have hpos := speed_of_light_mag_pos
  have hsign : x.sign = false := by
    cases hs : x.sign
    · rfl
    · unfold key at hk
      rw [hs] at hk
      simp only [if_true] at hk
      omega
  have hmag : 5029682823036928 * 2 ^ 1050 ≤ x.mag := by
    unfold key at hk
    rw [hsign] at hk
    simp only [Bool.false_eq_true, if_false] at hk
    exact_mod_cast hk
  unfold div
  simp only [hxn, speed_of_light_is_nan, speed_of_light_is_inf, speed_of_light_sign, hsign,
    Bool.false_eq_true, if_false, Bool.xor_false]
  have hcm : speed_of_light.mag ≠ 0 := by rw [speed_of_light_mag]; omega
  have hxm : x.mag ≠ 0 := by omega
  rw [if_neg hcm, if_neg hxm]
  split_ifs with hinf
  · apply ge_one_of_mag
    · rfl
    · rfl
    · show 2 ^ 1074 ≤ (of_fields false 2047 0).mag
      rw [of_fields_mag]
      norm_num
  · apply ge_one_of_mag
    · exact round_quot_sign _ _ _
    · exact round_quot_is_nan _ _ _
    · apply le_round_quot_mag
      · omega
      · rw [speed_of_light_mag]; exact hmag

/-- Division by `speed_of_light` of a value below `speed_of_light` gives less than 1. -/
theorem div_speed_of_light_lt_one (x : Double) (h : lt x speed_of_light = true) :
    lt (div x speed_of_light) Double.one = true := by
  unfold lt at h
  rw [speed_of_light_is_nan, speed_of_light_key] at h
  simp only [Bool.not_false, Bool.and_true, Bool.and_eq_true, Bool.not_eq_true',
    decide_eq_true_eq] at h
  obtain ⟨hxn, hk⟩ := h
  have hpos := speed_of_light_mag_pos
  have hcm : speed_of_light.mag ≠ 0 := by rw [speed_of_light_mag]; omega
  unfold div
  simp only [hxn, speed_of_light_is_nan, speed_of_light_is_inf, speed_of_light_sign,
    Bool.false_eq_true, if_false, Bool.xor_false]
  rw [if_neg hcm]
  cases hs : x.sign
  · -- a non-negative value below the speed of light
    have hmag : x.mag < 5029682823036928 * 2 ^ 1050 := by
      unfold key at hk
      rw [hs] at hk
      simp only [Bool.false_eq_true, if_false] at hk
      exact_mod_cast hk
    have hni : ¬ x.is_inf = true := by
      intro hi
      have := mag_of_is_inf x hi
      have h1 : 5029682823036928 * 2 ^ 1050 ≤ 4503599627370496 * 2 ^ 2046 := by
        norm_num
      omega
    rw [if_neg hni]
    split_ifs with hz
    · apply lt_one_of_mag
      · rfl
      · show (of_fields false 0 0).mag < 2 ^ 1074
        rw [of_fields_mag]
        norm_num
    · apply lt_one_of_mag
      · exact round_quot_is_nan _ _ _
      · apply round_quot_mag_lt
        · omega
        · rw [speed_of_light_mag]; exact mag_quot_bound x hmag
  · -- a value with the sign bit set: the quotient keeps the sign
    split_ifs with hinf hz
    · exact lt_one_of_sign _ rfl rfl
    · exact lt_one_of_sign _ rfl rfl
    · exact lt_one_of_sign _ (round_quot_sign _ _ _) (round_quot_is_nan _ _ _)

end Double

/-! ## Theorems: `detect_particle` -/

/-- The value `detect_particle` returns is 1 exactly on a powered-on detector whose
table recognises the category of the particle, and 0 otherwise. -/
theorem detect_particle_ret_eq (d : lepton_detector) (particle : lepton) :
    (d.detect_particle particle).ret =
      if d.detector_status = true ∧ recognises d.detector_type particle.particle_type
      then 1 else 0 := by
  unfold lepton_detector.detect_particle recognises lepton.get_particle_type
  split_ifs <;> rfl

/-- The detector `detect_particle` leaves behind: the count goes up by one (in 32-bit
arithmetic) on a match and nothing else changes. -/
theorem detect_particle_state_eq (d : lepton_detector) (particle : lepton) :
    (d.detect_particle particle).state =
      if d.detector_status = true ∧ recognises d.detector_type particle.particle_type
      then { d with number_of_particles := wrap_int (d.number_of_particles + 1) } else d := by
  unfold lepton_detector.detect_particle recognises lepton.get_particle_type
  split_ifs <;> rfl

/-- The text `detect_particle` writes: one line on a match, nothing otherwise. -/
theorem detect_particle_out_eq (d : lepton_detector) (particle : lepton) :
    (d.detect_particle particle).out =
      if d.detector_status = true ∧ recognises d.detector_type particle.particle_type
      then "The " ++ d.detector_type ++ " detected a " ++ particle.particle_type ++ "\n"
      else "" := by
  unfold lepton_detector.detect_particle recognises lepton.get_particle_type
  split_ifs <;> rfl

/-- C1: `detect_particle` returns 1 if and only if the detector is powered on and the
pair (detector category, lepton category) is in the matching table under exact string
equality; it returns 0 in every other case, whatever the two strings and the count are.
A powered-on "calorimeter" returns 1 exactly for "electron" and "anti-electron", and 0
for "muon" and "anti-muon". -/
theorem detect_particle_matching_table (d : lepton_detector) (particle : lepton)
    (count : Int) (m v b : Double) (c : Int) :
    ((d.detect_particle particle).ret = 1 ↔
      d.detector_status = true ∧
      ((d.detector_type = "tracker" ∧
          (particle.particle_type = "electron" ∨ particle.particle_type = "muon" ∨
            particle.particle_type = "anti-electron" ∨ particle.particle_type = "anti-muon")) ∨
        (d.detector_type = "calorimeter" ∧
          (particle.particle_type = "electron" ∨ particle.particle_type = "anti-electron")) ∨
        (d.detector_type = "muon chamber" ∧
          (particle.particle_type = "muon" ∨ particle.particle_type = "anti-muon")))) ∧
    ((d.detect_particle particle).ret = 1 ∨ (d.detect_particle particle).ret = 0) ∧
    (((lepton_detector.mk "calorimeter" true count).detect_particle particle).ret = 1 ↔
      particle.particle_type = "electron" ∨ particle.particle_type = "anti-electron") ∧
    ((lepton_detector.mk "calorimeter" true count).detect_particle
      (lepton.mk "muon" m c v b)).ret = 0 ∧
    ((lepton_detector.mk "calorimeter" true count).detect_particle
      (lepton.mk "anti-muon" m c v b)).ret = 0 := by
  refine ⟨?_, ?_, ?_, ?_, ?_⟩
  · rw [detect_particle_ret_eq]
    unfold recognises
    split_ifs with h
    · simpa using h
    · simpa using h
  · rw [detect_particle_ret_eq]
    split_ifs
    · exact Or.inl rfl
    · exact Or.inr rfl
  · rw [detect_particle_ret_eq]
    unfold recognises
    split_ifs with h
    · simpa using h
    · simpa using h
  · rw [detect_particle_ret_eq]
    show (if true = true ∧ recognises "calorimeter" "muon" then (1 : Int) else 0) = 0
    decide
  · rw [detect_particle_ret_eq]
    show (if true = true ∧ recognises "calorimeter" "anti-muon" then (1 : Int) else 0) = 0
    decide

/-! ## Theorems: the reference list -/

/-- C2, as stated, fails: on the list of `main` a powered-on "calorimeter" ends with
count 3, not 2, and a powered-on "muon chamber" ends with count 5, not 6 (the list holds
three electron-family and five muon-family entries). -/
theorem reference_list_counts_counterexample :
    (detect_all (lepton_detector.lepton_detector "calorimeter" true)
        lepton_information_vector).state.number_of_particles = 3 ∧
    (detect_all (lepton_detector.lepton_detector "calorimeter" true)
        lepton_information_vector).state.number_of_particles ≠ 2 ∧
    (detect_all (lepton_detector.lepton_detector "muon chamber" true)
        lepton_information_vector).state.number_of_particles = 5 ∧
    (detect_all (lepton_detector.lepton_detector "muon chamber" true)
        lepton_information_vector).state.number_of_particles ≠ 6 := by
  decide

/-- C2, amended: feeding the list of `main`, in list order, to a freshly constructed,
powered-on detector (constructed on, or constructed off and turned on as `main` does)
leaves a "tracker" with count 8, a "calorimeter" with count 3 and a "muon chamber" with
count 5; these are also the counts of the three detectors at the end of `main`. -/
theorem reference_list_counts :
    (detect_all (lepton_detector.lepton_detector "tracker" true)
        lepton_information_vector).state.number_of_particles = 8 ∧
    (detect_all (lepton_detector.lepton_detector "calorimeter" true)
        lepton_information_vector).state.number_of_particles = 3 ∧
    (detect_all (lepton_detector.lepton_detector "muon chamber" true)
        lepton_information_vector).state.number_of_particles = 5 ∧
    (detect_all (lepton_detector.lepton_detector "tracker" false).turn_on_detector.state
        lepton_information_vector).state.number_of_particles = 8 ∧
    (detect_all (lepton_detector.lepton_detector "calorimeter" false).turn_on_detector.state
        lepton_information_vector).state.number_of_particles = 3 ∧
    (detect_all (lepton_detector.lepton_detector "muon chamber" false).turn_on_detector.state
        lepton_information_vector).state.number_of_particles = 5 ∧
    main.state.1.number_of_particles = 8 ∧
    main.state.2.1.number_of_particles = 3 ∧
    main.state.2.2.number_of_particles = 5 := by
  decide

/-! ## Theorems: the count -/

/-- C3, as stated, fails at the largest `int`: a powered-on "tracker" whose count is
2147483647 returns 1 for an "electron", and the incremented 32-bit count is
-2147483648, which is neither the old count plus one nor at least the old count. -/
theorem detect_particle_count_counterexample :
    ((lepton_detector.mk "tracker" true 2147483647).detect_particle
        (lepton.lepton "electron" (Double.lit 511 (-3)) (-1) (Double.lit 46 6)).state).ret = 1 ∧
    ((lepton_detector.mk "tracker" true 2147483647).detect_particle
        (lepton.lepton "electron" (Double.lit 511 (-3)) (-1)
          (Double.lit 46 6)).state).state.number_of_particles = -2147483648 ∧
    ¬ (((lepton_detector.mk "tracker" true 2147483647).detect_particle
        (lepton.lepton "electron" (Double.lit 511 (-3)) (-1)
          (Double.lit 46 6)).state).state.number_of_particles = 2147483647 + 1) ∧
    ¬ (2147483647 ≤ ((lepton_detector.mk "tracker" true 2147483647).detect_particle
        (lepton.lepton "electron" (Double.lit 511 (-3)) (-1)
          (Double.lit 46 6)).state).state.number_of_particles) := by
  decide

/-- C3, amended: for every detector whose count is an `int` and every lepton, a
`detect_particle` call leaves the category and the power state unchanged, leaves the
count unchanged when it returns 0, returns 1 exactly when the detector is powered on and
its table recognises the category, and, when the count is below the largest `int`,
raises the count by exactly 1 when it returns 1 and never lowers it. -/
theorem detect_particle_count (d : lepton_detector) (particle : lepton)
    (hint : is_int d.number_of_particles) :
    (d.detect_particle particle).state.detector_type = d.detector_type ∧
    (d.detect_particle particle).state.detector_status = d.detector_status ∧
    ((d.detect_particle particle).ret = 0 →
      (d.detect_particle particle).state.number_of_particles = d.number_of_particles) ∧
    ((d.detect_particle particle).ret = 1 ↔
      d.detector_status = true ∧ recognises d.detector_type particle.particle_type) ∧
    (d.number_of_particles ≠ INT_MAX →
      ((d.detect_particle particle).ret = 1 →
        (d.detect_particle particle).state.number_of_particles = d.number_of_particles + 1) ∧
      d.number_of_particles ≤ (d.detect_particle particle).state.number_of_particles) := by
  rw [detect_particle_ret_eq, detect_particle_state_eq]
  unfold is_int INT_MIN INT_MAX at hint
  unfold INT_MAX
  split_ifs with h
  · refine ⟨rfl, rfl, by simp, by simpa using h, fun hmax => ?_⟩
    show (_ → wrap_int (d.number_of_particles + 1) = d.number_of_particles + 1) ∧
      d.number_of_particles ≤ wrap_int (d.number_of_particles + 1)
    unfold wrap_int
    omega
  · refine ⟨rfl, rfl, fun _ => rfl, by simpa using h, fun _ => ⟨by simp, le_refl _⟩⟩

/-- C3 at a concrete detector and lepton. -/
theorem detect_particle_count_witness :
    is_int (lepton_detector.mk "muon chamber" true 41).number_of_particles ∧
    ((lepton_detector.mk "muon chamber" true 41).detect_particle
      (lepton.mk "muon" Double.one (-1) Double.one Double.one)).state.number_of_particles
        = 42 := by
  refine ⟨by decide, ?_⟩
  have h := detect_particle_count (lepton_detector.mk "muon chamber" true 41)
    (lepton.mk "muon" Double.one (-1) Double.one Double.one) (by decide)
  exact (h.2.2.2.2 (by decide)).1 (by decide)

/-! ## Theorems: sequences of calls -/

/-- C4: on a detector that is powered off, whatever its category and count, a run of
`detect_particle` over any finite sequence of leptons returns 0 every time, writes
nothing, and leaves the detector, its count included, as it was. -/
theorem detect_all_off (d : lepton_detector) (particles : List lepton)
    (hoff : d.detector_status = false) :
    (detect_all d particles).ret = List.replicate particles.length 0 ∧
    (detect_all d particles).out = "" ∧
    (detect_all d particles).state.number_of_particles = d.number_of_particles ∧
    (detect_all d particles).state = d := by
  induction particles with
  | nil => exact ⟨rfl, rfl, rfl, rfl⟩
  | cons particle rest ih =>
    have hs : (d.detect_particle particle).state = d := by
      rw [detect_particle_state_eq]; simp [hoff]
    have hr : (d.detect_particle particle).ret = 0 := by
      rw [detect_particle_ret_eq]; simp [hoff]
    have ho : (d.detect_particle particle).out = "" := by
      rw [detect_particle_out_eq]; simp [hoff]
    obtain ⟨ih1, ih2, ih3, ih4⟩ := ih
    simp only [detect_all, hs, hr, ho, ih1, ih2, ih4, List.length_cons,
      List.replicate_succ]
    exact ⟨trivial, rfl, trivial, trivial⟩

/-- C4 at a concrete powered-off detector and a concrete sequence. -/
theorem detect_all_off_witness :
    (lepton_detector.mk "tracker" false 7).detector_status = false ∧
    (detect_all (lepton_detector.mk "tracker" false 7) lepton_information_vector).ret
      = [0, 0, 0, 0, 0, 0, 0, 0] ∧
    (detect_all (lepton_detector.mk "tracker" false 7) lepton_information_vector).out = "" ∧
    (detect_all (lepton_detector.mk "tracker" false 7)
      lepton_information_vector).state.number_of_particles = 7 :=
  ⟨rfl,
    (detect_all_off (lepton_detector.mk "tracker" false 7) lepton_information_vector rfl).1,
    (detect_all_off (lepton_detector.mk "tracker" false 7) lepton_information_vector rfl).2.1,
    (detect_all_off (lepton_detector.mk "tracker" false 7)
      lepton_information_vector rfl).2.2.1⟩

/-- The number of `detect_particle` calls of a sequence that return 1 is the number of
leptons presented while the detector is powered on whose category its table
recognises, and the category of the detector never changes. -/
theorem run_calls_ret_count (d : lepton_detector) (calls : List detector_call) :
    (run_calls d calls).ret.count 1 =
      presented_while_on d.detector_type d.detector_status calls := by
  induction calls generalizing d with
  | nil => rfl
  | cons call rest ih =>
    cases call with
    | turn_on_detector =>
      simp only [run_calls, presented_while_on]
      exact ih _
    | turn_off_detector =>
      simp only [run_calls, presented_while_on]
      exact ih _
    | print_detector_data =>
      simp only [run_calls, presented_while_on]
      exact ih _
    | detect_particle particle =>
      simp only [run_calls, presented_while_on]
      rw [detect_particle_ret_eq]
      have hst : (d.detect_particle particle).state.detector_type = d.detector_type ∧
          (d.detect_particle particle).state.detector_status = d.detector_status := by
        rw [detect_particle_state_eq]; split_ifs <;> exact ⟨rfl, rfl⟩
      have := ih (d.detect_particle particle).state
      rw [hst.1, hst.2] at this
      split_ifs with h
      · rw [List.count_cons_self, this]; omega
      · rw [List.count_cons_of_ne (by decide), this]; omega

/-- The count after a sequence of calls is the count before plus the number of
`detect_particle` calls that returned 1, in 32-bit arithmetic. -/
theorem run_calls_count_wrap (d : lepton_detector) (calls : List detector_call)
    (hint : is_int d.number_of_particles) :
    (run_calls d calls).state.number_of_particles =
      wrap_int (d.number_of_particles + ((run_calls d calls).ret.count 1 : Nat)) := by
  induction calls generalizing d with
  | nil =>
    unfold is_int INT_MIN INT_MAX at hint
    simp only [run_calls, List.count_nil]
    unfold wrap_int
    omega
  | cons call rest ih =>
    cases call with
    | turn_on_detector =>
      simp only [run_calls]
      exact ih _ hint
    | turn_off_detector =>
      simp only [run_calls]
      exact ih _ hint
    | print_detector_data =>
      simp only [run_calls]
      exact ih _ hint
    | detect_particle particle =>
      simp only [run_calls]
      have hr := detect_particle_ret_eq d particle
      have hs := detect_particle_state_eq d particle
      split_ifs at hr hs with h
      · have hint2 : is_int (d.detect_particle particle).state.number_of_particles := by
          rw [hs]
          show is_int (wrap_int (d.number_of_particles + 1))
          unfold is_int INT_MIN INT_MAX wrap_int
          omega
        rw [ih _ hint2, hr, List.count_cons_self, hs]
        show wrap_int (wrap_int (d.number_of_particles + 1) + _) = _
        unfold wrap_int
        push_cast
        omega
      · rw [hs] at *
        rw [ih _ hint, hr, List.count_cons_of_ne (by decide)]

/-- A run of `n` presentations of one recognised lepton to a powered-on detector counts
`n` of them. -/
theorem presented_replicate (category : String) (particle : lepton)
    (h : recognises category particle.particle_type) (n : Nat) :
    presented_while_on category true
      (List.replicate n (detector_call.detect_particle particle)) = n := by
  induction n with
  | zero => rfl
  | succ k ih =>
    rw [List.replicate_succ, presented_while_on, ih, if_pos ⟨rfl, h⟩]
    omega

/-- C5, as stated, fails once the count passes the largest `int`: after 2147483648
presentations of an "electron" to a "tracker" constructed powered on, every call has
returned 1, yet the count is -2147483648: not the number of calls that returned 1, and
negative. -/
theorem run_calls_count_counterexample :
    (run_calls (lepton_detector.lepton_detector "tracker" true)
      (List.replicate 2147483648 (detector_call.detect_particle
        (lepton.mk "electron" (Double.lit 511 (-3)) (-1) (Double.lit 46 6)
          (Double.div (Double.lit 46 6) speed_of_light))))).ret.count 1 = 2147483648 ∧
    (run_calls (lepton_detector.lepton_detector "tracker" true)
      (List.replicate 2147483648 (detector_call.detect_particle
        (lepton.mk "electron" (Double.lit 511 (-3)) (-1) (Double.lit 46 6)
          (Double.div (Double.lit 46 6) speed_of_light))))).state.number_of_particles
      = -2147483648 := by
  have hc := run_calls_ret_count (lepton_detector.lepton_detector "tracker" true)
    (List.replicate 2147483648 (detector_call.detect_particle
      (lepton.mk "electron" (Double.lit 511 (-3)) (-1) (Double.lit 46 6)
        (Double.div (Double.lit 46 6) speed_of_light))))
  have hp := presented_replicate "tracker"
    (lepton.mk "electron" (Double.lit 511 (-3)) (-1) (Double.lit 46 6)
      (Double.div (Double.lit 46 6) speed_of_light)) (by decide) 2147483648
  have hw := run_calls_count_wrap (lepton_detector.lepton_detector "tracker" true)
    (List.replicate 2147483648 (detector_call.detect_particle
      (lepton.mk "electron" (Double.lit 511 (-3)) (-1) (Double.lit 46 6)
        (Double.div (Double.lit 46 6) speed_of_light)))) (by decide)
  have hc2 := hc.trans hp
  refine ⟨hc2, ?_⟩
  rw [hw, hc2]
  decide

/-- C5, amended: for a detector made by the two-argument constructor and every finite
sequence of `turn_on_detector`, `turn_off_detector`, `print_detector_data` and
`detect_particle` calls, the number of `detect_particle` calls that returned 1 is the
number of leptons presented while the detector was powered on whose category its table
recognises; and whenever that number is at most the largest `int`, the final count
equals it and is not negative. -/
theorem run_calls_count (category : String) (status : Bool) (calls : List detector_call)
    (hfit : ((run_calls (lepton_detector.lepton_detector category status) calls).ret.count 1
      : Int) ≤ INT_MAX) :
    (run_calls (lepton_detector.lepton_detector category status) calls).ret.count 1 =
      presented_while_on category status calls ∧
    (run_calls (lepton_detector.lepton_detector category status)
      calls).state.number_of_particles =
      ((run_calls (lepton_detector.lepton_detector category status) calls).ret.count 1 : Nat) ∧
    0 ≤ (run_calls (lepton_detector.lepton_detector category status)
      calls).state.number_of_particles := by
  have hw := run_calls_count_wrap (lepton_detector.lepton_detector category status) calls
    (show is_int 0 by decide)
  have hc := run_calls_ret_count (lepton_detector.lepton_detector category status) calls
  have h0 : (lepton_detector.lepton_detector category status).number_of_particles = 0 := rfl
  rw [h0] at hw
  unfold INT_MAX at hfit
  refine ⟨hc, ?_, ?_⟩
  · rw [hw]; unfold wrap_int; omega
  · rw [hw]; unfold wrap_int; omega

/-- C5 at a concrete sequence: off, two presentations, on, four presentations of which
the "calorimeter" recognises two. -/
theorem run_calls_count_witness :
    (run_calls (lepton_detector.lepton_detector "calorimeter" false)
      [detector_call.detect_particle (lepton.mk "electron" Double.one (-1) Double.one Double.one),
       detector_call.detect_particle (lepton.mk "muon" Double.one (-1) Double.one Double.one),
       detector_call.turn_on_detector,
       detector_call.detect_particle (lepton.mk "electron" Double.one (-1) Double.one Double.one),
       detector_call.print_detector_data,
       detector_call.detect_particle (lepton.mk "muon" Double.one (-1) Double.one Double.one),
       detector_call.detect_particle (lepton.mk "anti-electron" Double.one 1 Double.one Double.one),
       detector_call.turn_off_detector,
       detector_call.detect_particle (lepton.mk "electron" Double.one (-1) Double.one Double.one)]
      ).state.number_of_particles = (2 : Nat) :=
  (run_calls_count "calorimeter" false
      [detector_call.detect_particle (lepton.mk "electron" Double.one (-1) Double.one Double.one),
       detector_call.detect_particle (lepton.mk "muon" Double.one (-1) Double.one Double.one),
       detector_call.turn_on_detector,
       detector_call.detect_particle (lepton.mk "electron" Double.one (-1) Double.one Double.one),
       detector_call.print_detector_data,
       detector_call.detect_particle (lepton.mk "muon" Double.one (-1) Double.one Double.one),
       detector_call.detect_particle (lepton.mk "anti-electron" Double.one 1 Double.one Double.one),
       detector_call.turn_off_detector,
       detector_call.detect_particle (lepton.mk "electron" Double.one (-1) Double.one Double.one)]
      (by decide)).2.1

/-! ## Theorems: `lepton` -/

/-- C6: after `set_charge(input)` the charge is the input when the input is 1 or -1 and
the prior charge otherwise; the category, rest mass, velocity and beta are never touched;
an accepted input writes nothing and a rejected one writes exactly the one warning line.
In particular `set_charge(2)` leaves the whole record as it was and writes that line. -/
theorem set_charge_accepts_unit_charges (l : lepton) (input_charge : Int) :
    (l.set_charge input_charge).state.charge =
      (if input_charge = 1 ∨ input_charge = -1 then input_charge else l.charge) ∧
    (l.set_charge input_charge).state.particle_type = l.particle_type ∧
    (l.set_charge input_charge).state.rest_mass = l.rest_mass ∧
    (l.set_charge input_charge).state.velocity = l.velocity ∧
    (l.set_charge input_charge).state.beta = l.beta ∧
    (l.set_charge input_charge).out =
      (if input_charge = 1 ∨ input_charge = -1 then ""
        else "Invalid charge. Must be 1 (for particles) or -1 (for anti-particles)\n") ∧
    (l.set_charge 2).state = l ∧
    (l.set_charge 2).out =
      "Invalid charge. Must be 1 (for particles) or -1 (for anti-particles)\n" := by
  refine ⟨?_, ?_, ?_, ?_, ?_, ?_, rfl, rfl⟩ <;>
    (unfold lepton.set_charge; split_ifs <;> rfl)

/-- C7: for an input velocity with `input >= speed_of_light`, `set_velocity(input)`
leaves the velocity and the beta at their prior values, and the category, rest mass and
charge with them (the record is unchanged), and writes the warning line. -/
theorem set_velocity_rejects (l : lepton) (input_velocity : Double)
    (h : Double.ge input_velocity speed_of_light = true) :
    (l.set_velocity input_velocity).state.velocity = l.velocity ∧
    (l.set_velocity input_velocity).state.beta = l.beta ∧
    (l.set_velocity input_velocity).state = l ∧
    (l.set_velocity input_velocity).out = "Invalid velocity. Please ensure v < c. \n" := by
  have hlt := Double.lt_eq_false_of_ge _ _ h
  unfold lepton.set_velocity
  rw [hlt]
  exact ⟨rfl, rfl, rfl, rfl⟩

/-- C7 at the velocity `1.2e9` on the second lepton of `main`. -/
theorem set_velocity_rejects_witness :
    Double.ge (Double.lit 12 8) speed_of_light = true ∧
    ((lepton.lepton "electron" (Double.lit 511 (-3)) (-1) (Double.lit 46 6)).state.set_velocity
      (Double.lit 12 8)).state.velocity = Double.lit 46 6 :=
  ⟨by decide,
    (set_velocity_rejects
      (lepton.lepton "electron" (Double.lit 511 (-3)) (-1) (Double.lit 46 6)).state
      (Double.lit 12 8) (by decide)).1⟩

/-- C8: the record the four-argument constructor makes returns the four arguments from
`get_particle_type`, `get_rest_mass`, `get_charge` and `get_velocity`, and `get_beta`
returns the velocity divided by `speed_of_light`, which is the double `2.99792458e8`
(exactly 299792458, that is 299792458 * 2^1074 units of 2^-1074). The quotient is the
one the hardware division gives: for a NaN velocity it is that NaN, quieted, so the
velocity `0xFFF8000000000000` gives the beta `0xFFF8000000000000`. -/
theorem constructor_getters (input_particle_type : String) (input_mass : Double)
    (input_charge : Int) (input_velocity : Double) :
    (lepton.lepton input_particle_type input_mass input_charge
      input_velocity).state.get_particle_type = input_particle_type ∧
    (lepton.lepton input_particle_type input_mass input_charge
      input_velocity).state.get_rest_mass = input_mass ∧
    (lepton.lepton input_particle_type input_mass input_charge
      input_velocity).state.get_charge = input_charge ∧
    (lepton.lepton input_particle_type input_mass input_charge
      input_velocity).state.get_velocity = input_velocity ∧
    (lepton.lepton input_particle_type input_mass input_charge
      input_velocity).state.get_beta = Double.div input_velocity speed_of_light ∧
    speed_of_light = Double.lit 299792458 0 ∧
    speed_of_light.sign = false ∧ speed_of_light.mag = 299792458 * 2 ^ 1074 ∧
    (lepton.lepton input_particle_type input_mass input_charge
      input_velocity).state.get_beta =
      (if input_velocity.is_nan = true then Double.quiet input_velocity
        else Double.div input_velocity speed_of_light) ∧
    (lepton.lepton input_particle_type input_mass input_charge
      (Double.of_fields true 0x7FF 0x8000000000000)).state.get_beta
      = Double.of_fields true 0x7FF 0x8000000000000 := by
  refine ⟨rfl, rfl, rfl, rfl, rfl, rfl, by decide, by decide, ?_, ?_⟩
  · show Double.div input_velocity speed_of_light = _
    split_ifs with h
    · exact Double.div_of_is_nan _ _ h
    · rfl
  · show Double.div (Double.of_fields true 0x7FF 0x8000000000000) speed_of_light = _
    decide

/-- C9: for a velocity with `velocity >= speed_of_light` the four-argument constructor
writes the warning, stores the velocity as given and still computes beta as the velocity
divided by `speed_of_light`; that beta is at least 1. -/
theorem constructor_out_of_range (input_particle_type : String) (input_mass : Double)
    (input_charge : Int) (input_velocity : Double)
    (h : Double.ge input_velocity speed_of_light = true) :
    (lepton.lepton input_particle_type input_mass input_charge input_velocity).out =
      "\nOne or more of your beta values are incorrect, please ensure v < c for all particles.\n" ∧
    (lepton.lepton input_particle_type input_mass input_charge
      input_velocity).state.velocity = input_velocity ∧
    (lepton.lepton input_particle_type input_mass input_charge
      input_velocity).state.beta = Double.div input_velocity speed_of_light ∧
    Double.ge (lepton.lepton input_particle_type input_mass input_charge
      input_velocity).state.beta Double.one = true := by
  refine ⟨?_, rfl, rfl, ?_⟩
  · unfold lepton.lepton
    simp only [h, if_true]
  · exact Double.div_speed_of_light_ge_one _ h

/-- C9 at the first lepton of `main`, whose velocity is `1.2e9`. -/
theorem constructor_out_of_range_witness :
    Double.ge (Double.lit 12 8) speed_of_light = true ∧
    Double.ge (lepton.lepton "electron" (Double.lit 511 (-3)) (-1)
      (Double.lit 12 8)).state.beta Double.one = true :=
  ⟨by decide,
    (constructor_out_of_range "electron" (Double.lit 511 (-3)) (-1) (Double.lit 12 8)
      (by decide)).2.2.2⟩

/-- C10: for an input velocity with `input < speed_of_light`, `set_velocity(input)`
stores the input as the velocity and the input divided by `speed_of_light` as beta,
which is below 1; it writes nothing and leaves the category, rest mass and charge
unchanged. -/
theorem set_velocity_accepts (l : lepton) (input_velocity : Double)
    (h : Double.lt input_velocity speed_of_light = true) :
    (l.set_velocity input_velocity).state.velocity = input_velocity ∧
    (l.set_velocity input_velocity).state.beta = Double.div input_velocity speed_of_light ∧
    Double.lt (l.set_velocity input_velocity).state.beta Double.one = true ∧
    (l.set_velocity input_velocity).out = "" ∧
    (l.set_velocity input_velocity).state.particle_type = l.particle_type ∧
    (l.set_velocity input_velocity).state.rest_mass = l.rest_mass ∧
    (l.set_velocity input_velocity).state.charge = l.charge := by
  have hb := Double.div_speed_of_light_lt_one _ h
  unfold lepton.set_velocity
  rw [h]
  exact ⟨rfl, rfl, hb, rfl, rfl, rfl, rfl⟩

/-- C10 at the velocity `4.6e7` on the first lepton of `main`. -/
theorem set_velocity_accepts_witness :
    Double.lt (Double.lit 46 6) speed_of_light = true ∧
    ((lepton.lepton "electron" (Double.lit 511 (-3)) (-1) (Double.lit 12 8)).state.set_velocity
      (Double.lit 46 6)).state.velocity = Double.lit 46 6 ∧
    Double.lt ((lepton.lepton "electron" (Double.lit 511 (-3)) (-1)
      (Double.lit 12 8)).state.set_velocity (Double.lit 46 6)).state.beta Double.one = true :=
  ⟨by decide,
    (set_velocity_accepts
      (lepton.lepton "electron" (Double.lit 511 (-3)) (-1) (Double.lit 12 8)).state
      (Double.lit 46 6) (by decide)).1,
    (set_velocity_accepts
      (lepton.lepton "electron" (Double.lit 511 (-3)) (-1) (Double.lit 12 8)).state
      (Double.lit 46 6) (by decide)).2.2.1⟩

/-! ## Theorems: `print_lepton_data` -/

/-- C11, as stated, fails: for `lepton("electron", 0.511, -1, 1.2e9)` the beta is written
as "4.003", not "4.002" (the quotient is 4.00276..., which rounds up at three decimals). -/
theorem print_first_lepton_beta_counterexample :
    show_fixed3 (lepton.lepton "electron" (Double.lit 511 (-3)) (-1)
      (Double.lit 12 8)).state.beta = "4.003" ∧
    show_fixed3 (lepton.lepton "electron" (Double.lit 511 (-3)) (-1)
      (Double.lit 12 8)).state.beta ≠ "4.002" ∧
    print_lepton_data (lepton.lepton "electron" (Double.lit 511 (-3)) (-1)
      (Double.lit 12 8)).state ≠
      "\nType of lepton: electron\nRest Mass (MeV): 0.511\nCharge: -1\nVelocity (m/s): 1200000000.000\nBeta Value: 4.002\n\n" := by
  decide

/-- C11, amended: for `lepton("electron", 0.511, -1, 1.2e9)` the beta is the double
quotient of `1.2e9` by `2.99792458e8`, and `print_lepton_data` writes it in fixed-point
notation rounded to three decimals as "4.003". Both operands are exact integers, and the
exact quotient lies strictly between 4.0025 and 4.0035. -/
theorem print_first_lepton :
    (lepton.lepton "electron" (Double.lit 511 (-3)) (-1) (Double.lit 12 8)).state.beta
      = Double.div (Double.lit 12 8) speed_of_light ∧
    show_fixed3 (lepton.lepton "electron" (Double.lit 511 (-3)) (-1)
      (Double.lit 12 8)).state.beta = "4.003" ∧
    print_lepton_data (lepton.lepton "electron" (Double.lit 511 (-3)) (-1)
      (Double.lit 12 8)).state =
      "\nType of lepton: electron\nRest Mass (MeV): 0.511\nCharge: -1\nVelocity (m/s): 1200000000.000\nBeta Value: 4.003\n\n" ∧
    (Double.lit 12 8).mag = 1200000000 * 2 ^ 1074 ∧
    speed_of_light.mag = 299792458 * 2 ^ 1074 ∧
    40025 * 299792458 < 1200000000 * 10000 ∧
    1200000000 * 10000 < 40035 * 299792458 := by
  decide

/-! ## Theorems: the power state -/

/-- C12: the power state is one of OFF and ON; `turn_on_detector` leaves the detector ON
and `turn_off_detector` leaves it OFF from either state, a second call of either changes
nothing, and both leave the category and the count unchanged; the two-argument
constructor sets the category and the power state to its arguments and the count to 0. -/
theorem power_state_machine (d : lepton_detector) (category : String) (status : Bool) :
    (d.detector_status = false ∨ d.detector_status = true) ∧
    d.turn_on_detector.state.detector_status = true ∧
    d.turn_off_detector.state.detector_status = false ∧
    d.turn_on_detector.state.turn_on_detector.state = d.turn_on_detector.state ∧
    d.turn_off_detector.state.turn_off_detector.state = d.turn_off_detector.state ∧
    d.turn_on_detector.state.detector_type = d.detector_type ∧
    d.turn_on_detector.state.number_of_particles = d.number_of_particles ∧
    d.turn_off_detector.state.detector_type = d.detector_type ∧
    d.turn_off_detector.state.number_of_particles = d.number_of_particles ∧
    (lepton_detector.lepton_detector category status).detector_type = category ∧
    (lepton_detector.lepton_detector category status).detector_status = status ∧
    (lepton_detector.lepton_detector category status).number_of_particles = 0 := by
  refine ⟨?_, rfl, rfl, rfl, rfl, rfl, rfl, rfl, rfl, rfl, rfl, rfl⟩
  cases d.detector_status
  · exact Or.inl rfl
  · exact Or.inr rfl

/-! ## Theorems: constructor and mutators -/

/-- C13: the four-argument constructor checks neither the charge nor the rest mass: with
a velocity below `speed_of_light` it stores whatever charge and rest mass it is given and
writes nothing, while `set_charge` keeps the prior charge and writes its warning for any
charge other than 1 and -1. For the charge 2: the constructor stores 2 silently,
`set_charge(2)` leaves the record unchanged and writes the warning. -/
theorem constructor_checks_no_charge_or_mass (input_particle_type : String)
    (input_mass : Double) (input_charge : Int) (input_velocity : Double) (l : lepton)
    (hv : Double.lt input_velocity speed_of_light = true) :
    (lepton.lepton input_particle_type input_mass input_charge
      input_velocity).state.charge = input_charge ∧
    (lepton.lepton input_particle_type input_mass input_charge
      input_velocity).state.rest_mass = input_mass ∧
    (lepton.lepton input_particle_type input_mass input_charge input_velocity).out = "" ∧
    (l.set_charge input_charge).state.charge =
      (if input_charge = 1 ∨ input_charge = -1 then input_charge else l.charge) ∧
    (l.set_charge input_charge).out =
      (if input_charge = 1 ∨ input_charge = -1 then ""
        else "Invalid charge. Must be 1 (for particles) or -1 (for anti-particles)\n") ∧
    (lepton.lepton input_particle_type input_mass 2 input_velocity).state.charge = 2 ∧
    (lepton.lepton input_particle_type input_mass 2 input_velocity).out = "" ∧
    (l.set_charge 2).state = l ∧
    (l.set_charge 2).out =
      "Invalid charge. Must be 1 (for particles) or -1 (for anti-particles)\n" := by
  have hge := Double.ge_eq_false_of_lt _ _ hv
  have hout : ∀ c : Int,
      (lepton.lepton input_particle_type input_mass c input_velocity).out = "" := by
    intro c
    unfold lepton.lepton
    simp only [hge, Bool.false_eq_true, if_false]
  refine ⟨rfl, rfl, hout _, ?_, ?_, rfl, hout _, rfl, rfl⟩
  · unfold lepton.set_charge; split_ifs <;> rfl
  · unfold lepton.set_charge; split_ifs <;> rfl

/-- C13 at the charge 2, the rest mass `-1.0` and the velocity `4.6e7`. -/
theorem constructor_checks_no_charge_or_mass_witness :
    Double.lt (Double.lit 46 6) speed_of_light = true ∧
    (lepton.lepton "muon" (Double.of_fields true 1023 0) 2 (Double.lit 46 6)).state.charge = 2 ∧
    (lepton.lepton "muon" (Double.of_fields true 1023 0) 2 (Double.lit 46 6)).state.rest_mass
      = Double.of_fields true 1023 0 ∧
    (lepton.lepton "muon" (Double.of_fields true 1023 0) 2 (Double.lit 46 6)).out = "" :=
  ⟨by decide,
    (constructor_checks_no_charge_or_mass "muon" (Double.of_fields true 1023 0) 2
      (Double.lit 46 6) (lepton.mk "muon" Double.one (-1) Double.one Double.one)
      (by decide)).1,
    (constructor_checks_no_charge_or_mass "muon" (Double.of_fields true 1023 0) 2
      (Double.lit 46 6) (lepton.mk "muon" Double.one (-1) Double.one Double.one)
      (by decide)).2.1,
    (constructor_checks_no_charge_or_mass "muon" (Double.of_fields true 1023 0) 2
      (Double.lit 46 6) (lepton.mk "muon" Double.one (-1) Double.one Double.one)
      (by decide)).2.2.1⟩

/-! ## Theorems: the detection message -/

/-- C14, as stated, fails: a powered-on "tracker" presented with an "electron" reports a
match and writes "The tracker detected a electron" and a line feed, which is not the
text "tracker detected a electron" (the detector category, " detected a ", the lepton
category). -/
theorem detect_particle_message_counterexample :
    ((lepton_detector.mk "tracker" true 0).detect_particle
      (lepton.mk "electron" (Double.lit 511 (-3)) (-1) (Double.lit 46 6)
        (Double.div (Double.lit 46 6) speed_of_light))).ret = 1 ∧
    ((lepton_detector.mk "tracker" true 0).detect_particle
      (lepton.mk "electron" (Double.lit 511 (-3)) (-1) (Double.lit 46 6)
        (Double.div (Double.lit 46 6) speed_of_light))).out
      = "The tracker detected a electron\n" ∧
    ((lepton_detector.mk "tracker" true 0).detect_particle
      (lepton.mk "electron" (Double.lit 511 (-3)) (-1) (Double.lit 46 6)
        (Double.div (Double.lit 46 6) speed_of_light))).out
      ≠ "tracker" ++ " detected a " ++ "electron" := by
  decide

/-- C14, amended: what `detect_particle` writes is, when it returns 1, exactly the one
line "The ", the detector category, " detected a ", the lepton category and a line feed,
and nothing when it returns 0; it returns 1 or 0. -/
theorem detect_particle_message (d : lepton_detector) (particle : lepton) :
    (d.detect_particle particle).out =
      (if (d.detect_particle particle).ret = 1
        then "The " ++ d.detector_type ++ " detected a " ++ particle.particle_type ++ "\n"
        else "") ∧
    ((d.detect_particle particle).ret = 1 ∨ (d.detect_particle particle).ret = 0) := by
  rw [detect_particle_out_eq, detect_particle_ret_eq]
  split_ifs with h h1 h2
  · exact ⟨rfl, Or.inl rfl⟩
  · exact absurd rfl h1
  · exact absurd h2 (by decide)
  · exact ⟨rfl, Or.inr rfl⟩

/-! ## Theorems: invariants of a lepton -/

/-- A mutator call keeps `beta` equal to the velocity divided by `speed_of_light`. -/
theorem apply_call_beta (l : lepton) (call : lepton_call)
    (h : l.beta = Double.div l.velocity speed_of_light) :
    (apply_call l call).state.beta =
      Double.div (apply_call l call).state.velocity speed_of_light := by
  cases call with
  | set_particle_type input_particle_type => exact h
  | set_rest_mass input_mass => exact h
  | set_charge input_charge =>
    show (l.set_charge input_charge).state.beta
      = Double.div (l.set_charge input_charge).state.velocity speed_of_light
    unfold lepton.set_charge
    split_ifs <;> exact h
  | set_velocity input_velocity =>
    show (l.set_velocity input_velocity).state.beta
      = Double.div (l.set_velocity input_velocity).state.velocity speed_of_light
    unfold lepton.set_velocity
    split_ifs
    · rfl
    · exact h

/-- A sequence of mutator calls keeps `beta` equal to the velocity divided by
`speed_of_light`. -/
theorem run_mutators_beta (l : lepton) (calls : List lepton_call)
    (h : l.beta = Double.div l.velocity speed_of_light) :
    (run_mutators l calls).state.beta =
      Double.div (run_mutators l calls).state.velocity speed_of_light := by
  induction calls generalizing l with
  | nil => exact h
  | cons call rest ih => exact ih _ (apply_call_beta l call h)

/-- A mutator call keeps a physically valid lepton physically valid. -/
theorem apply_call_valid (l : lepton) (call : lepton_call) (h : physically_valid l) :
    physically_valid (apply_call l call).state := by
  cases call with
  | set_particle_type input_particle_type => exact h
  | set_rest_mass input_mass => exact h
  | set_charge input_charge =>
    show physically_valid (l.set_charge input_charge).state
    unfold lepton.set_charge
    split_ifs with hc
    · exact ⟨h.1, hc⟩
    · exact h
  | set_velocity input_velocity =>
    show physically_valid (l.set_velocity input_velocity).state
    unfold lepton.set_velocity
    split_ifs with hv
    · exact ⟨hv, h.2⟩
    · exact h

/-- A sequence of mutator calls keeps a physically valid lepton physically valid. -/
theorem run_mutators_valid (l : lepton) (calls : List lepton_call)
    (h : physically_valid l) : physically_valid (run_mutators l calls).state := by
  induction calls generalizing l with
  | nil => exact h
  | cons call rest ih => exact ih _ (apply_call_valid l call h)

/-- C15: for every record made by the four-argument constructor and every finite
sequence of `set_particle_type`, `set_rest_mass`, `set_charge` and `set_velocity` calls
with arbitrary arguments, accepted or rejected, the beta of the record afterwards is its
velocity divided by `speed_of_light`, the quotient being the one the hardware division
gives (a NaN velocity comes back quieted, with its sign and payload). For example a
record constructed with the NaN velocity `0xFFF8000000000000` keeps that velocity and
the beta `0xFFF8000000000000` through a rejected `set_charge(2)` and a rejected
`set_velocity` of another NaN. -/
theorem beta_follows_velocity (input_particle_type : String) (input_mass : Double)
    (input_charge : Int) (input_velocity : Double) (calls : List lepton_call) :
    (run_mutators (lepton.lepton input_particle_type input_mass input_charge
      input_velocity).state calls).state.beta =
    Double.div (run_mutators (lepton.lepton input_particle_type input_mass input_charge
      input_velocity).state calls).state.velocity speed_of_light ∧
    (run_mutators (lepton.lepton "electron" (Double.lit 511 (-3)) (-1)
        (Double.of_fields true 0x7FF 0x8000000000000)).state
      [lepton_call.set_charge 2,
        lepton_call.set_velocity (Double.of_fields false 0x7FF 1)]).state.beta
      = Double.of_fields true 0x7FF 0x8000000000000 ∧
    (run_mutators (lepton.lepton "electron" (Double.lit 511 (-3)) (-1)
        (Double.of_fields true 0x7FF 0x8000000000000)).state
      [lepton_call.set_charge 2,
        lepton_call.set_velocity (Double.of_fields false 0x7FF 1)]).state.velocity
      = Double.of_fields true 0x7FF 0x8000000000000 :=
  ⟨run_mutators_beta _ calls rfl, by decide, by decide⟩

/-- C16: a record that satisfies the physical-validity predicate (velocity below
`speed_of_light`, charge 1 or -1) still satisfies it after `set_particle_type`,
`set_rest_mass`, `set_charge` or `set_velocity` with any argument, and after any finite
sequence of such calls. A record made by the four-argument constructor satisfies it
exactly when the velocity and charge given are in range, so a constructed and then
mutated record that violates it was constructed with an out-of-range velocity or
charge. -/
theorem mutators_preserve_validity (l : lepton) (hvalid : physically_valid l)
    (new_particle_type : String) (new_mass : Double) (new_charge : Int)
    (new_velocity : Double) (calls : List lepton_call)
    (input_particle_type : String) (input_mass : Double) (input_charge : Int)
    (input_velocity : Double) :
    physically_valid (l.set_particle_type new_particle_type).state ∧
    physically_valid (l.set_rest_mass new_mass).state ∧
    physically_valid (l.set_charge new_charge).state ∧
    physically_valid (l.set_velocity new_velocity).state ∧
    physically_valid (run_mutators l calls).state ∧
    (physically_valid (lepton.lepton input_particle_type input_mass input_charge
        input_velocity).state ↔
      Double.lt input_velocity speed_of_light = true ∧
        (input_charge = 1 ∨ input_charge = -1)) ∧
    (¬ physically_valid (run_mutators (lepton.lepton input_particle_type input_mass
        input_charge input_velocity).state calls).state →
      ¬ (Double.lt input_velocity speed_of_light = true ∧
        (input_charge = 1 ∨ input_charge = -1))) :=
  ⟨apply_call_valid l (lepton_call.set_particle_type new_particle_type) hvalid,
    apply_call_valid l (lepton_call.set_rest_mass new_mass) hvalid,
    apply_call_valid l (lepton_call.set_charge new_charge) hvalid,
    apply_call_valid l (lepton_call.set_velocity new_velocity) hvalid,
    run_mutators_valid l calls hvalid,
    Iff.rfl,
    fun hbad hargs => hbad (run_mutators_valid _ calls hargs)⟩

/-- C16 at the second lepton of `main`, with a rejected charge, a rejected velocity and
an accepted velocity. -/
theorem mutators_preserve_validity_witness :
    physically_valid
      (lepton.lepton "electron" (Double.lit 511 (-3)) (-1) (Double.lit 46 6)).state ∧
    physically_valid
      ((lepton.lepton "electron" (Double.lit 511 (-3)) (-1) (Double.lit 46 6)).state.set_charge
        2).state ∧
    physically_valid
      ((lepton.lepton "electron" (Double.lit 511 (-3)) (-1)
        (Double.lit 46 6)).state.set_velocity (Double.lit 12 8)).state ∧
    physically_valid
      (run_mutators
        (lepton.lepton "electron" (Double.lit 511 (-3)) (-1) (Double.lit 46 6)).state
        [lepton_call.set_charge 2, lepton_call.set_velocity (Double.lit 12 8),
          lepton_call.set_velocity (Double.lit 33 5), lepton_call.set_charge 1]).state :=
  ⟨by decide,
    (mutators_preserve_validity
      (lepton.lepton "electron" (Double.lit 511 (-3)) (-1) (Double.lit 46 6)).state
      (by decide) "muon" Double.one 2 (Double.lit 12 8)
      [lepton_call.set_charge 2, lepton_call.set_velocity (Double.lit 12 8),
        lepton_call.set_velocity (Double.lit 33 5), lepton_call.set_charge 1]
      "muon" Double.one 1 Double.one).2.2.1,
    (mutators_preserve_validity
      (lepton.lepton "electron" (Double.lit 511 (-3)) (-1) (Double.lit 46 6)).state
      (by decide) "muon" Double.one 2 (Double.lit 12 8)
      [lepton_call.set_charge 2, lepton_call.set_velocity (Double.lit 12 8),
        lepton_call.set_velocity (Double.lit 33 5), lepton_call.set_charge 1]
      "muon" Double.one 1 Double.one).2.2.2.1,
    (mutators_preserve_validity
      (lepton.lepton "electron" (Double.lit 511 (-3)) (-1) (Double.lit 46 6)).state
      (by decide) "muon" Double.one 2 (Double.lit 12 8)
      [lepton_call.set_charge 2, lepton_call.set_velocity (Double.lit 12 8),
        lepton_call.set_velocity (Double.lit 33 5), lepton_call.set_charge 1]
      "muon" Double.one 1 Double.one).2.2.2.2.1⟩

/-! ## Theorems: the list of `main` -/

/-- C17: of the eight entries of the list of `main` exactly one, the first,
`lepton("electron", 0.511, -1, 1.2e9)`, has a velocity at or above `speed_of_light`;
building the list writes the construction warning exactly once, for that entry, whose
stored beta is above 1; every other entry has a velocity below `speed_of_light`, a beta
below 1 and a charge of 1 or -1. -/
theorem reference_list_velocities :
    lepton_information_vector.length = 8 ∧
    lepton_information_vector.head? =
      some (lepton.lepton "electron" (Double.lit 511 (-3)) (-1) (Double.lit 12 8)).state ∧
    lepton_information_vector.map (fun l => Double.ge l.velocity speed_of_light)
      = [true, false, false, false, false, false, false, false] ∧
    lepton_information_calls.map (fun c => c.out)
      = ["\nOne or more of your beta values are incorrect, please ensure v < c for all particles.\n",
         "", "", "", "", "", "", ""] ∧
    String.join (lepton_information_calls.map (fun c => c.out))
      = "\nOne or more of your beta values are incorrect, please ensure v < c for all particles.\n" ∧
    lepton_information_vector.map (fun l => Double.lt Double.one l.beta)
      = [true, false, false, false, false, false, false, false] ∧
    lepton_information_vector.map (fun l => Double.lt l.velocity speed_of_light)
      = [false, true, true, true, true, true, true, true] ∧
    lepton_information_vector.map (fun l => Double.lt l.beta Double.one)
      = [false, true, true, true, true, true, true, true] ∧
    lepton_information_vector.map (fun l => decide (l.charge = 1 ∨ l.charge = -1))
      = [true, true, true, true, true, true, true, true] := by
  decide

end Assignment3
